import Mathlib

/-!
Verification of the giacomino-api RAG service core: a shallow embedding of
the sliding-window rate limiter, the structured logger, the document index
(`retrieve_context` over a FAISS flat-L2 index), the conversation
orchestrator (`generate_response`), and the privileged history endpoint,
with theorems settling the specification's claims about them.

Conventions: rate-limiter timestamps are exact integer instants (seconds)
and embedding coordinates are exact rationals; external backends (embedding, completion, the durable sinks) are passed in
as explicit functions so that their success and failure cases can be
quantified over; the mutable state each Python function touches is passed
and returned explicitly.
-/

set_option autoImplicit false

/-! ## Sliding-window rate limiter (src/utils.py, `rate_limit`)

The store models the module-level dict
`rate_limit_store : {(user, endpoint): [timestamps]}` as an association
list with unique keys; a key is a (client address, endpoint name) pair.
Timestamps (`time.time()` instants, in seconds) are modelled as integers.
-/

abbrev RKey := String × String

abbrev RStore := List (RKey × List ℤ)

/-- `rate_limit_store.get(key, [])`: first value stored for the key, `[]` if absent. -/
def storeGet (s : RStore) (k : RKey) : List ℤ :=
  match s with
  | [] => []
  | (k', v) :: rest => if k' = k then v else storeGet rest k

/-- `rate_limit_store[key] = v`: replace the value at the key, or add the entry. -/
def storeSet (s : RStore) (k : RKey) (v : List ℤ) : RStore :=
  match s with
  | [] => [(k, v)]
  | (k', v') :: rest => if k' = k then (k, v) :: rest else (k', v') :: storeSet rest k v

/-- Outcome of one admission check: whether the wrapped handler ran, and the
store afterwards. -/
structure RLResult where
  admitted : Bool
  store : RStore
deriving DecidableEq

/-- One admission check of the `rate_limit(request_count, h)` decorator's wrapper:
prune the key's timestamps to the trailing `h * 3600` window; if the pruned
count reaches `request_count`, return 429 without touching the store;
otherwise append `now` to the pruned list and store it back. -/
def rateLimitCheck (request_count : Nat) (h : ℤ) (s : RStore) (key : RKey) (now : ℤ) :
    RLResult :=
  let window := h * 3600
  let timestamps := storeGet s key
  let pruned := timestamps.filter (fun ts => now - ts < window)
  if request_count ≤ pruned.length then
    { admitted := false, store := s }
  else
    { admitted := true, store := storeSet s key (pruned ++ [now]) }

/-! ## Structured logger (src/utils.py, `MyLogger`)

`payload` is the in-memory accumulator (one entry per appended line),
`console` the sequence of lines printed to stdout, `log_count` the counter.
The durable sink is modelled by whether a log file is configured and by the
outcome the file append would have (`Except.error e` carries the exception
message). -/

structure LoggerState where
  payload : List String
  log_count : Nat
  console : List String
deriving DecidableEq

/-- `MyLogger._format_message`: `[timestamp] [level] [name] message`. -/
def format_message (name ts message level : String) : String :=
  "[" ++ ts ++ "] [" ++ level ++ "] [" ++ name ++ "] " ++ message

/-- `MyLogger._write_to_file`: try the file append; on failure print
`Failed to write to log file: e` to the console and swallow the exception. -/
def write_to_file (st : LoggerState) (writeResult : Except String Unit) : LoggerState :=
  match writeResult with
  | .ok _ => st
  | .error e => { st with console := st.console ++ ["Failed to write to log file: " ++ e] }

/-- `MyLogger.log`: format, print to console, append to the payload,
bump the counter, and append to the file when one is configured. -/
def logger_log (name ts : String) (hasLogFile : Bool) (writeResult : Except String Unit)
    (st : LoggerState) (message level : String) (print_console : Bool) : LoggerState :=
  let formatted := format_message name ts message level
  let st1 := if print_console then { st with console := st.console ++ [formatted] } else st
  let st2 := { st1 with payload := st1.payload ++ [formatted], log_count := st1.log_count + 1 }
  if hasLogFile then write_to_file st2 writeResult else st2

/-! ## Document index (src/giacomino.py, `_load_documents` / `retrieve_context`)

Embedding vectors are lists of rationals. The FAISS `IndexFlatL2` exact
search is modelled by sorting the stored vector offsets by squared L2
distance to the query; as FAISS documents, when `k` exceeds the number of
stored vectors the label array is padded with `-1`. -/

/-- Squared Euclidean distance between two vectors (FAISS `IndexFlatL2` metric). -/
def sqDist (u v : List ℚ) : ℚ :=
  ((u.zip v).map (fun p => (p.1 - p.2) ^ 2)).sum

/-- `index.search(query_vec, k)` labels: the offsets of the `min k n` stored
vectors nearest to `q`, in non-decreasing distance order, followed by
`k - n` copies of the padding label `-1`. -/
def faissSearch (vecs : List (List ℚ)) (q : List ℚ) (k : Nat) : List Int :=
  let n := vecs.length
  let order := (List.range n).insertionSort
    (fun i j => sqDist (vecs.getD i []) q ≤ sqDist (vecs.getD j []) q)
  ((order.take k).map (fun i => (i : Int))) ++ List.replicate (k - n) (-1)

/-- Python list subscripting `docs[i]` with an `Int` subscript: a negative
subscript counts from the end of the list. -/
def pyIndex (docs : List String) (i : Int) : String :=
  if 0 ≤ i then docs.getD i.toNat "" else docs.getD (docs.length - (-i).toNat) ""

/-- `Giacomino.retrieve_context`: embed the query, search the index for the
`top_k` nearest stored vectors, and map each returned label `i` with
`i < len(documents)` to `documents[i]`. -/
def retrieve_context (documents : List String) (embed : String → List ℚ)
    (top_k : Nat) (query : String) : List String :=
  let query_vec := embed query
  let indices := faissSearch (documents.map embed) query_vec top_k
  (indices.filter (fun i => i < (documents.length : Int))).map (pyIndex documents)

/-- `Giacomino._load_documents` splitting: split the corpus on `---`, strip
each piece, keep the non-blank ones. -/
def splitDocuments (content : String) : List String :=
  ((content.splitOn "---").map String.trim).filter (fun chunk => chunk ≠ "")

/-- State built by `Giacomino._load_documents`: the chunk sequence, the
embedding matrix the index is built over, and the argument list of every
`embed` call issued during the build. -/
structure BuildState where
  documents : List String
  embeddings : List (List ℚ)
  embedCalls : List (List String)
deriving DecidableEq

/-- `Giacomino._load_documents`: split the corpus into chunks and embed the
whole chunk list through one `_embed_texts` call. -/
def load_documents (embed : List String → List (List ℚ)) (content : String) : BuildState :=
  let documents := splitDocuments content
  { documents := documents
  , embeddings := embed documents
  , embedCalls := [documents] }

/-- `Giacomino.get_available_docs`: total document count and availability status. -/
def get_available_docs (st : BuildState) : Nat × String :=
  (st.documents.length, if st.documents.isEmpty then "empty" else "available")

/-! ## Conversation orchestrator (src/giacomino.py, `generate_response`)

The caller's `messages` list holds role/content dicts; `generate_response`
mutates that very list (it inserts a timestamp dict at position 0 and
appends the assistant reply), so the post-call list is heterogeneous and is
modelled by `Entry`. The exceptions the Python raises (failed asserts, a
failing backend call, a failing file append) are the `Err` values of the
`Except` results. -/

inductive Err where
  | invalidInput
  | invalidRole
  | backendUnavailable
  | persistenceFailure
deriving DecidableEq

structure Message where
  role : String
  content : String
deriving DecidableEq

/-- An element of the list written to `saved_messages.jsonl`: either the
timestamp dict inserted at position 0 or a role/content dict. -/
inductive Entry where
  | tstamp (ts : String)
  | msg (role content : String)
deriving DecidableEq

def Message.toEntry (m : Message) : Entry := .msg m.role m.content

/-- `self.system_prompt.format(context=..., date=...)` for a template whose
only replacement fields are `\x7bcontext\x7d` and `\x7bdate\x7d`. -/
def formatPrompt (template context date : String) : String :=
  (template.replace "\x7bcontext\x7d" context).replace "\x7bdate\x7d" date

/-- The role assertion of `_send_chat_completion_request`. -/
def validRole (r : String) : Bool :=
  r = "system" || r = "assistant" || r = "user"

/-- The collaborators `generate_response` reaches: the prompt template, the
retrieval outcome per query, the completion backend, and the durable
conversation-log append. -/
structure GenEnv where
  template : String
  retrieve : String → List String
  complete : String → List Message → Except Err String
  save : List Entry → Except Err Unit

/-- Everything observable about one `generate_response` call: the value it
returns or the exception it raises, the `(system_prompt, messages)` argument
of each completion-backend call, the records appended to the durable log,
and the caller's `messages` list as the call leaves it. -/
structure GenResult where
  result : Except Err String
  completionCalls : List (String × List Message)
  savedRecords : List (List Entry)
  callerMessages : List Entry

/-- `Giacomino.generate_response`: assert the history is non-empty and ends
in a user message; retrieve context for that message, falling back to the
literal `No specific context available.` when retrieval returns nothing;
format the system prompt; assert every role is valid and call the completion
backend; insert the timestamp dict at position 0 of the caller's list and
append the assistant reply; append the mutated list to the durable log and
return the reply. Any raised exception propagates. -/
def generate_response (env : GenEnv) (date timestamp : String)
    (messages : List Message) : GenResult :=
  match messages.getLast? with
  | none => ⟨.error .invalidInput, [], [], messages.map Message.toEntry⟩
  | some lastMsg =>
    if lastMsg.role ≠ "user" then
      ⟨.error .invalidInput, [], [], messages.map Message.toEntry⟩
    else
      let user_message := lastMsg.content
      let context_docs := env.retrieve user_message
      let context :=
        if context_docs.isEmpty then "No specific context available."
        else String.intercalate "\n" context_docs
      let system_prompt := formatPrompt env.template context date
      if ¬ messages.all (fun m => validRole m.role) then
        ⟨.error .invalidRole, [], [], messages.map Message.toEntry⟩
      else
        match env.complete system_prompt messages with
        | .error e => ⟨.error e, [(system_prompt, messages)], [], messages.map Message.toEntry⟩
        | .ok response =>
          let newMessages :=
            Entry.tstamp timestamp :: messages.map Message.toEntry
              ++ [Entry.msg "assistant" response]
          match env.save newMessages with
          | .error e => ⟨.error e, [(system_prompt, messages)], [], newMessages⟩
          | .ok _ => ⟨.ok response, [(system_prompt, messages)], [newMessages], newMessages⟩

/-- Fixture collaborators: retrieval finds nothing, the completion backend
answers `ans`, the durable append succeeds. -/
def okEnv : GenEnv :=
  { template := "sys \x7bcontext\x7d \x7bdate\x7d"
  , retrieve := fun _ => []
  , complete := fun _ _ => .ok "ans"
  , save := fun _ => .ok () }

/-- Fixture collaborators: the completion backend answers `hi` but every
durable append raises. -/
def failSaveEnv : GenEnv :=
  { template := "sys \x7bcontext\x7d \x7bdate\x7d"
  , retrieve := fun _ => []
  , complete := fun _ _ => .ok "hi"
  , save := fun _ => .error .persistenceFailure }

/-! ## Privileged history endpoint (src/app.py, `get_history`) -/

/-- Python truthiness of an optional string. -/
def pyTruthy : Option String → Bool
  | none => false
  | some s => s ≠ ""

/-- Python `a or b` on optional strings. -/
def pyOr (a b : Option String) : Option String :=
  if pyTruthy a then a else b

inductive HResp where
  | notConfigured
  | unauthorized
  | noHistory
  | history (data : String)
deriving DecidableEq

/-- `get_history`: take the `Authorization` header, falling back to the
`key` query parameter; reject with 500 when no `HISTORY_KEY` is configured;
reject with the 401 `Unauthorized` body when the supplied key is missing or
differs from the configured one; otherwise serve the history file. -/
def get_history (header query expected : Option String) (fileExists : Bool)
    (data : String) : HResp :=
  let auth_key := pyOr header query
  if ¬ pyTruthy expected then .notConfigured
  else if ¬ pyTruthy auth_key ∨ auth_key ≠ expected then .unauthorized
  else if ¬ fileExists then .noHistory
  else .history data

/-! ## Theorems: sliding-window rate limiter -/

/-- C5: with `max_requests = 3` and `window_hours = 1`, four admission checks
for one key starting from the empty store, all within one second (instants
0, 0, 1, 1), admit three times then reject; the stored sequence for the key
then has exactly 3 entries, and a later check past the window boundary
(instant 3601) is admitted again. -/
theorem rate_limit_burst_then_window_reset (key : RKey) :
    rateLimitCheck 3 1 [] key 0 = ⟨true, [(key, [0])]⟩ ∧
      rateLimitCheck 3 1 [(key, [0])] key 0 = ⟨true, [(key, [0, 0])]⟩ ∧
      rateLimitCheck 3 1 [(key, [0, 0])] key 1 = ⟨true, [(key, [0, 0, 1])]⟩ ∧
      rateLimitCheck 3 1 [(key, [0, 0, 1])] key 1 = ⟨false, [(key, [0, 0, 1])]⟩ ∧
      (storeGet [(key, [0, 0, 1])] key).length = 3 ∧
      (rateLimitCheck 3 1 [(key, [0, 0, 1])] key 3601).admitted = true := by
  refine ⟨?_, ?_, ?_, ?_, ?_, ?_⟩ <;>
    norm_num [rateLimitCheck, storeGet, storeSet, List.filter]

/-- C3 counterexample: a rejected admission check does not store the pruned
sequence back.  With `max_requests = 1`, a window of one hour, a stored
sequence holding the stale instant 0 and the fresh instant 5000, a check at
instant 5000 rejects, the pruned sequence is `[5000]`, but the store still
holds `[0, 5000]` afterwards — not the pruned sequence the claim requires. -/
theorem rate_limit_reject_not_pruned_counterexample :
    (rateLimitCheck 1 1 [(("1.2.3.4", "chat"), [0, 5000])] ("1.2.3.4", "chat") 5000).admitted
        = false ∧
      (storeGet [(("1.2.3.4", "chat"), [0, 5000])] ("1.2.3.4", "chat")).filter
          (fun ts => 5000 - ts < 1 * 3600) = [5000] ∧
      storeGet
          (rateLimitCheck 1 1 [(("1.2.3.4", "chat"), [0, 5000])] ("1.2.3.4", "chat") 5000).store
          ("1.2.3.4", "chat") = [0, 5000] ∧
      storeGet
          (rateLimitCheck 1 1 [(("1.2.3.4", "chat"), [0, 5000])] ("1.2.3.4", "chat") 5000).store
          ("1.2.3.4", "chat") ≠ [5000] := by
  decide

/-- C3 amended: when the pruned count reaches `max_requests` the check
rejects and leaves the whole store exactly as it was before the check — the
pruned sequence is not written back (stale entries stay stored until a later
admitted check) and the rejected attempt's timestamp is not appended. -/
theorem rate_limit_reject_leaves_store_unchanged (request_count : Nat) (h : ℤ)
    (s : RStore) (key : RKey) (now : ℤ)
    (hfull : request_count ≤
      ((storeGet s key).filter (fun ts => now - ts < h * 3600)).length) :
    (rateLimitCheck request_count h s key now).admitted = false ∧
      (rateLimitCheck request_count h s key now).store = s := by
  simp [rateLimitCheck, hfull]

/-- C3 amended, witness: the rejection hypothesis holds at the
counterexample input and the store is returned untouched there. -/
theorem rate_limit_reject_leaves_store_unchanged_witness :
    (1 ≤ ((storeGet [(("1.2.3.4", "chat"), [(0 : ℤ), 5000])] ("1.2.3.4", "chat")).filter
        (fun ts => (5000 : ℤ) - ts < 1 * 3600)).length) ∧
      (rateLimitCheck 1 1 [(("1.2.3.4", "chat"), [(0 : ℤ), 5000])]
          ("1.2.3.4", "chat") 5000).admitted = false ∧
      (rateLimitCheck 1 1 [(("1.2.3.4", "chat"), [(0 : ℤ), 5000])]
          ("1.2.3.4", "chat") 5000).store =
        [(("1.2.3.4", "chat"), [(0 : ℤ), 5000])] :=
  ⟨by decide,
    rate_limit_reject_leaves_store_unchanged 1 1
      [(("1.2.3.4", "chat"), [(0 : ℤ), 5000])] ("1.2.3.4", "chat") 5000 (by decide)⟩

/-! ## Theorems: structured logger -/

/-- C4 counterexample: a `log` call with a configured durable sink whose file
write fails leaves the in-memory accumulator holding exactly the original
INFO line; the failure report (`Failed to write to log file: disk full`) is
printed to the console and is not recorded in the accumulator, so no
error-level entry for the failure exists there. -/
theorem logger_sink_failure_counterexample :
    (logger_log "MyLogger" "2026-05-01 00:00:00" true (.error "disk full")
        ⟨[], 0, []⟩ "hello" "INFO" true).payload
      = ["[2026-05-01 00:00:00] [INFO] [MyLogger] hello"] ∧
      "Failed to write to log file: disk full" ∉
        (logger_log "MyLogger" "2026-05-01 00:00:00" true (.error "disk full")
          ⟨[], 0, []⟩ "hello" "INFO" true).payload ∧
      "Failed to write to log file: disk full" ∈
        (logger_log "MyLogger" "2026-05-01 00:00:00" true (.error "disk full")
          ⟨[], 0, []⟩ "hello" "INFO" true).console := by
  decide

/-- C4 amended: a durable-sink write failure never raises (the call still
returns a logger state) and is reported by a console print only: the
accumulator receives exactly the original formatted message, the counter
still increments by one, and the failure line goes to the console, not to
the accumulator. -/
theorem logger_sink_failure_console_only (name ts : String) (st : LoggerState)
    (message level e : String) :
    logger_log name ts true (.error e) st message level true =
      ⟨st.payload ++ [format_message name ts message level],
        st.log_count + 1,
        st.console ++ [format_message name ts message level,
          "Failed to write to log file: " ++ e]⟩ := by
  simp [logger_log, write_to_file]

/-! ## Theorems: privileged history endpoint -/

/-- C8: with a configured (truthy) secret, the history endpoint grants
access only when the effective supplied key (header, falling back to the
query parameter) equals the configured secret; an absent key and a wrong
key both produce the identical `unauthorized` rejection. -/
theorem get_history_exact_match_auth (header query expected : Option String)
    (fileExists : Bool) (data : String) (hexp : pyTruthy expected = true) :
    ((get_history header query expected fileExists data ≠ .unauthorized ∧
        get_history header query expected fileExists data ≠ .notConfigured) →
          pyOr header query = expected) ∧
      get_history none none expected fileExists data = .unauthorized ∧
      (pyOr header query ≠ expected →
        get_history header query expected fileExists data = .unauthorized) := by
  refine ⟨?_, ?_, ?_⟩
  · intro hgr
    by_contra hne
    exact hgr.1 (by simp [get_history, hexp, hne])
  · have h0 : pyTruthy (pyOr none none) = false := rfl
    simp [get_history, hexp, h0]
  · intro hne
    simp [get_history, hexp, hne]

/-- C8 witness: with secret `s3cret`, a wrong header key is rejected with
the same `unauthorized` value as an absent key. -/
theorem get_history_exact_match_auth_witness :
    pyTruthy (some "s3cret") = true ∧
      ((get_history (some "wrong") none (some "s3cret") true "[]" ≠ .unauthorized ∧
          get_history (some "wrong") none (some "s3cret") true "[]" ≠ .notConfigured) →
            pyOr (some "wrong") none = some "s3cret") ∧
      get_history none none (some "s3cret") true "[]" = .unauthorized ∧
      (pyOr (some "wrong") none ≠ some "s3cret" →
        get_history (some "wrong") none (some "s3cret") true "[]" = .unauthorized) :=
  ⟨by decide, get_history_exact_match_auth (some "wrong") none (some "s3cret") true "[]" (by decide)⟩

/-! ## Theorems: document index build -/

/-- C9: building from a corpus that splits into `n` non-blank trimmed chunks
issues exactly one batched `embed` call (whose argument is the whole chunk
list), stores the backend's vectors aligned by offset with the chunks
(exactly `n` of them, given the backend's one-vector-per-text contract), and
`get_available_docs` then reports total `n` with status `available` when
`n > 0`. -/
theorem load_documents_build (content : String)
    (embed : List String → List (List ℚ))
    (hlen : ∀ ts, (embed ts).length = ts.length) :
    (load_documents embed content).documents = splitDocuments content ∧
      (load_documents embed content).embedCalls = [splitDocuments content] ∧
      (load_documents embed content).embeddings = embed (splitDocuments content) ∧
      (load_documents embed content).embeddings.length = (splitDocuments content).length ∧
      (get_available_docs (load_documents embed content)).1 = (splitDocuments content).length ∧
      (0 < (splitDocuments content).length →
        (get_available_docs (load_documents embed content)).2 = "available") := by
  refine ⟨rfl, rfl, rfl, hlen _, rfl, ?_⟩
  intro hpos
  have hne : splitDocuments content ≠ [] := List.ne_nil_of_length_pos hpos
  simp [get_available_docs, load_documents, List.isEmpty_iff, hne]

/-- C9 witness: the one-vector-per-text backend contract holds for a
backend mapping every text to a fixed vector, and the build conclusions
hold for it on the corpus `a---b`. -/
theorem load_documents_build_witness :
    (∀ ts : List String, (ts.map (fun _ => [(1 : ℚ)])).length = ts.length) ∧
      ((load_documents (fun ts => ts.map (fun _ => [(1 : ℚ)])) "a---b").documents
          = splitDocuments "a---b" ∧
        (load_documents (fun ts => ts.map (fun _ => [(1 : ℚ)])) "a---b").embedCalls
          = [splitDocuments "a---b"] ∧
        (load_documents (fun ts => ts.map (fun _ => [(1 : ℚ)])) "a---b").embeddings
          = (splitDocuments "a---b").map (fun _ => [(1 : ℚ)]) ∧
        (load_documents (fun ts => ts.map (fun _ => [(1 : ℚ)])) "a---b").embeddings.length
          = (splitDocuments "a---b").length ∧
        (get_available_docs (load_documents (fun ts => ts.map (fun _ => [(1 : ℚ)])) "a---b")).1
          = (splitDocuments "a---b").length ∧
        (0 < (splitDocuments "a---b").length →
          (get_available_docs
            (load_documents (fun ts => ts.map (fun _ => [(1 : ℚ)])) "a---b")).2
              = "available")) :=
  ⟨fun ts => by simp,
    load_documents_build "a---b" (fun ts => ts.map (fun _ => [(1 : ℚ)])) (fun ts => by simp)⟩

/-! ## Theorems: conversation orchestrator -/

/-- C6: on a history that is empty or whose last message's role is not
`user`, `generate_response` raises the invalid-input assertion, never calls
the completion backend, and appends no record to the durable log. -/
theorem generate_response_invalid_history (env : GenEnv) (date ts : String)
    (messages : List Message)
    (hbad : (messages.getLast?).map Message.role ≠ some "user") :
    (generate_response env date ts messages).result = .error .invalidInput ∧
      (generate_response env date ts messages).completionCalls = [] ∧
      (generate_response env date ts messages).savedRecords = [] := by
  cases hm : messages.getLast? with
  | none => simp [generate_response, hm]
  | some m =>
    rw [hm] at hbad
    have hrole : m.role ≠ "user" := by
      intro h
      exact hbad (by simp [h])
    simp [generate_response, hm, hrole]

/-- C6 witness: a one-message history ending in an assistant turn is
rejected as invalid input with no backend call and no saved record. -/
theorem generate_response_invalid_history_witness :
    ((([⟨"assistant", "hi"⟩] : List Message).getLast?).map Message.role ≠ some "user") ∧
      (generate_response okEnv "d" "t" [⟨"assistant", "hi"⟩]).result = .error .invalidInput ∧
      (generate_response okEnv "d" "t" [⟨"assistant", "hi"⟩]).completionCalls = [] ∧
      (generate_response okEnv "d" "t" [⟨"assistant", "hi"⟩]).savedRecords = [] :=
  ⟨by decide, generate_response_invalid_history okEnv "d" "t" [⟨"assistant", "hi"⟩] (by decide)⟩

/-- C7: on a valid history whose retrieval comes back empty,
`generate_response` succeeds, the prompt handed to the completion backend is
the template formatted with the literal fallback context
`No specific context available.`, and exactly one record is appended to the
durable log. -/
theorem generate_response_empty_retrieval_fallback (env : GenEnv) (date ts : String)
    (messages : List Message) (m : Message) (resp : String)
    (hlast : messages.getLast? = some m) (hrole : m.role = "user")
    (hroles : messages.all (fun x => validRole x.role) = true)
    (hret : env.retrieve m.content = [])
    (hcomp : env.complete
        (formatPrompt env.template "No specific context available." date) messages = .ok resp)
    (hsave : env.save (Entry.tstamp ts :: (messages.map Message.toEntry
        ++ [Entry.msg "assistant" resp])) = .ok ()) :
    (generate_response env date ts messages).result = .ok resp ∧
      (generate_response env date ts messages).completionCalls
        = [(formatPrompt env.template "No specific context available." date, messages)] ∧
      (generate_response env date ts messages).savedRecords
        = [Entry.tstamp ts :: (messages.map Message.toEntry ++ [Entry.msg "assistant" resp])] := by
  simp [generate_response, hlast, hrole, hroles, hret, hcomp, hsave]

/-- C7 witness: with empty retrieval and succeeding backends, a one-message
user history produces the fallback-context prompt and one saved record. -/
theorem generate_response_empty_retrieval_fallback_witness :
    (([⟨"user", "q"⟩] : List Message).getLast? = some ⟨"user", "q"⟩) ∧
      (Message.mk "user" "q").role = "user" ∧
      (([⟨"user", "q"⟩] : List Message).all (fun x => validRole x.role) = true) ∧
      okEnv.retrieve (Message.mk "user" "q").content = [] ∧
      okEnv.complete
        (formatPrompt okEnv.template "No specific context available." "d") [⟨"user", "q"⟩]
        = .ok "ans" ∧
      okEnv.save (Entry.tstamp "t" :: (([⟨"user", "q"⟩] : List Message).map Message.toEntry
        ++ [Entry.msg "assistant" "ans"])) = .ok () ∧
      (generate_response okEnv "d" "t" [⟨"user", "q"⟩]).result = .ok "ans" ∧
      (generate_response okEnv "d" "t" [⟨"user", "q"⟩]).completionCalls
        = [(formatPrompt okEnv.template "No specific context available." "d", [⟨"user", "q"⟩])] ∧
      (generate_response okEnv "d" "t" [⟨"user", "q"⟩]).savedRecords
        = [Entry.tstamp "t" :: (([⟨"user", "q"⟩] : List Message).map Message.toEntry
            ++ [Entry.msg "assistant" "ans"])] := by
  refine ⟨by decide, rfl, by decide, rfl, rfl, rfl, ?_⟩
  exact generate_response_empty_retrieval_fallback okEnv "d" "t" [⟨"user", "q"⟩]
    ⟨"user", "q"⟩ "ans" (by decide) rfl (by decide) rfl rfl rfl

/-- C2 counterexample: when the completion backend succeeds but the durable
append raises, `generate_response` raises instead of returning the generated
text `hi`, and nothing is logged at that site — the persistence failure does
propagate to the caller. -/
theorem generate_response_save_failure_counterexample :
    (generate_response failSaveEnv "d" "t" [⟨"user", "q"⟩]).result
        = .error .persistenceFailure ∧
      (generate_response failSaveEnv "d" "t" [⟨"user", "q"⟩]).result ≠ .ok "hi" ∧
      (generate_response failSaveEnv "d" "t" [⟨"user", "q"⟩]).savedRecords = [] := by
  have h1 : (generate_response failSaveEnv "d" "t" [⟨"user", "q"⟩]).result
      = .error .persistenceFailure := rfl
  exact ⟨h1, by simp [h1], rfl⟩

/-- C2 amended: when the completion backend succeeds but the durable-log
append fails, the persistence failure propagates out of `generate_response`
uncaught and unlogged — the generated text is not returned and no record is
appended. -/
theorem generate_response_save_failure_propagates (env : GenEnv) (date ts : String)
    (messages : List Message) (m : Message) (resp : String) (e : Err)
    (hlast : messages.getLast? = some m) (hrole : m.role = "user")
    (hroles : messages.all (fun x => validRole x.role) = true)
    (hcomp : ∀ sp msgs, env.complete sp msgs = .ok resp)
    (hsave : ∀ rec, env.save rec = .error e) :
    (generate_response env date ts messages).result = .error e ∧
      (generate_response env date ts messages).result ≠ .ok resp ∧
      (generate_response env date ts messages).savedRecords = [] := by
  have h1 : (generate_response env date ts messages).result = .error e := by
    simp [generate_response, hlast, hrole, hroles, hcomp, hsave]
  have h3 : (generate_response env date ts messages).savedRecords = [] := by
    simp [generate_response, hlast, hrole, hroles, hcomp, hsave]
  exact ⟨h1, by simp [h1], h3⟩

/-- C2 amended, witness: at the failing-append fixture the persistence
failure propagates and the reply `hi` is not returned. -/
theorem generate_response_save_failure_propagates_witness :
    (([⟨"user", "q"⟩] : List Message).getLast? = some ⟨"user", "q"⟩) ∧
      (Message.mk "user" "q").role = "user" ∧
      (([⟨"user", "q"⟩] : List Message).all (fun x => validRole x.role) = true) ∧
      (∀ sp msgs, failSaveEnv.complete sp msgs = .ok "hi") ∧
      (∀ rec, failSaveEnv.save rec = .error .persistenceFailure) ∧
      (generate_response failSaveEnv "d" "t" [⟨"user", "q"⟩]).result
          = .error .persistenceFailure ∧
      (generate_response failSaveEnv "d" "t" [⟨"user", "q"⟩]).result ≠ .ok "hi" ∧
      (generate_response failSaveEnv "d" "t" [⟨"user", "q"⟩]).savedRecords = [] := by
  refine ⟨by decide, rfl, by decide, fun _ _ => rfl, fun _ => rfl, ?_⟩
  exact generate_response_save_failure_propagates failSaveEnv "d" "t" [⟨"user", "q"⟩]
    ⟨"user", "q"⟩ "hi" .persistenceFailure (by decide) rfl (by decide)
    (fun _ _ => rfl) (fun _ => rfl)

/-- C10: every successful `generate_response` call leaves the caller's
`messages` list with the timestamp dict inserted at position 0 and the
generated assistant message appended at the end — exactly two more elements
than before the call. -/
theorem generate_response_mutates_caller_messages (env : GenEnv) (date ts : String)
    (messages : List Message) (resp : String)
    (hok : (generate_response env date ts messages).result = .ok resp) :
    (generate_response env date ts messages).callerMessages
      = Entry.tstamp ts :: (messages.map Message.toEntry ++ [Entry.msg "assistant" resp]) ∧
    (generate_response env date ts messages).callerMessages.length = messages.length + 2 := by
  revert hok
  unfold generate_response
  dsimp only
  repeat' split
  all_goals intro hok
  all_goals simp at hok
  all_goals subst hok
  all_goals simp [List.length_append]

/-- C10 witness: a successful one-message call leaves the caller's list
with three elements — timestamp dict, original message, assistant reply. -/
theorem generate_response_mutates_caller_messages_witness :
    (generate_response okEnv "d" "t" [⟨"user", "q"⟩]).result = .ok "ans" ∧
      (generate_response okEnv "d" "t" [⟨"user", "q"⟩]).callerMessages
        = Entry.tstamp "t" :: (([⟨"user", "q"⟩] : List Message).map Message.toEntry
            ++ [Entry.msg "assistant" "ans"]) ∧
      (generate_response okEnv "d" "t" [⟨"user", "q"⟩]).callerMessages.length
        = ([⟨"user", "q"⟩] : List Message).length + 2 :=
  ⟨rfl, generate_response_mutates_caller_messages okEnv "d" "t" [⟨"user", "q"⟩] "ans" rfl⟩

/-! ## Theorems: document index retrieval -/

/-- C1: evaluation at the failing input.  With one indexed chunk `alpha` and
`top_k = 2`, FAISS pads the missing neighbor with label `-1`, the guard
`i < len(documents)` passes it, and Python's negative indexing turns it into
the last chunk: `retrieve_context` returns two entries (`alpha` twice)
instead of clamping to the single indexed chunk. -/
theorem retrieve_context_overclamp_eval :
    retrieve_context ["alpha"] (fun _ => [0]) 2 "q" = ["alpha", "alpha"] ∧
      (retrieve_context ["alpha"] (fun _ => [0]) 2 "q").length ≠ 1 := by
  exact ⟨rfl, by decide⟩
